import Mathlib

/-!
Shallow embedding of `apps/go-http-server/src/main.go`: an in-memory user
repository, the HTTP request handlers, the content-type middleware, and the
server lifecycle wiring of `main`.  Line numbers refer to that file.
-/

namespace GoHttpServer

/-- `User` (main.go lines 24-27): `ID int` with json tag `id`, `Name string`
with json tag `name`. -/
structure User where
  id : Int
  name : String
deriving DecidableEq, Repr

/-- The Go value `map[int]User`, modelled as an association list of
key/value pairs.  Go map iteration order is unspecified, so no theorem here
depends on the order of this list; lookup, overwrite and delete below follow
Go map semantics. -/
abbrev UsersMap := List (Int × User)

/-- Go map lookup `m[k]` (the value part of the two-result form). -/
def mapFind (m : UsersMap) (k : Int) : Option User :=
  (m.find? (fun p => p.1 == k)).map (fun p => p.2)

/-- Go map assignment `m[k] = v`: inserts, overwriting any entry for `k`. -/
def mapPut (m : UsersMap) (k : Int) (v : User) : UsersMap :=
  (k, v) :: m.filter (fun p => p.1 != k)

/-- Go `delete(m, k)`: removes the entry for `k` when present. -/
def mapDel (m : UsersMap) (k : Int) : UsersMap :=
  m.filter (fun p => p.1 != k)

/-- `Repo` (lines 30-34): the in-memory database.  `nextID` is a Go `int`,
modelled as an unbounded `Int`: overflow of the 64-bit counter is not
reachable, because every `Save` that increments the counter also inserts a
map entry under a fresh key, and far fewer than `2^63` entries fit in any
process.  The `sync.RWMutex` serialises the operations; each operation below
is the state transformation performed under the lock. -/
structure Repo where
  users : UsersMap
  nextID : Int
deriving DecidableEq, Repr

/-- `NewRepo` (lines 36-41): empty map, counter starts at 1. -/
def NewRepo : Repo :=
  { users := [], nextID := 1 }

/-- The Go zero value of `User`, which `users[id]` yields for a missing key. -/
def zeroUser : User :=
  { id := 0, name := "" }

/-- `Repo.Find` (lines 49-54): `user, ok := r.users[id]; return user, ok`. -/
def Repo.Find (r : Repo) (id : Int) : User × Bool :=
  match mapFind r.users id with
  | some u => (u, true)
  | none => (zeroUser, false)

/-- `Repo.Save` (lines 56-63): `user.ID = r.nextID; r.users[user.ID] = user;
r.nextID++; return user`.  Returns the stored user and the new state. -/
def Repo.Save (r : Repo) (user : User) : User × Repo :=
  let stored : User := { user with id := r.nextID }
  (stored, { users := mapPut r.users stored.id stored, nextID := r.nextID + 1 })

/-- `Repo.Delete` (lines 65-69): `delete(r.users, id)`. -/
def Repo.Delete (r : Repo) (id : Int) : Repo :=
  { r with users := mapDel r.users id }

/-- A reference to a `map[int]User` value.  In Go, maps are reference types:
`return r.users` (line 46) hands the caller a handle to the repository's one
backing table, not a copy.  The program allocates exactly one such map (in
`NewRepo`, for the package-level `var repo`), and the field `r.users` is
never re-assigned afterwards, so every reference returned by `Get` denotes
that single live table. -/
structure MapRef where
  unit : Unit
deriving DecidableEq, Repr

/-- `Repo.Get` (lines 43-47): `return r.users, nil`.  The first component is
the map reference described at `MapRef`; the error is always `nil`. -/
def Repo.Get (_r : Repo) : MapRef × Option String :=
  (⟨()⟩, none)

/-- Dereferencing a map reference returned by `Get`, observed when the
repository is in state `current`: since the reference aliases the live
backing table (see `MapRef`), the view it yields is the repository's users
map at observation time, not at the time of the `Get` call. -/
def MapRef.read (_ref : MapRef) (current : Repo) : UsersMap :=
  current.users

/-- `int64` upper bound used by `strconv.Atoi` on 64-bit platforms. -/
def intMax64 : Int := 2 ^ 63 - 1

/-- `int64` lower bound used by `strconv.Atoi` on 64-bit platforms. -/
def intMin64 : Int := -(2 ^ 63)

/-- Numeric value of a list of decimal digit characters. -/
def digitsVal (cs : List Char) : Nat :=
  cs.foldl (fun a c => a * 10 + (c.toNat - 48)) 0

/-- Go double-quoting of a plain string, as `strconv` error messages use. -/
def goQuote (s : String) : String :=
  "\"" ++ s ++ "\""

/-- `strconv.Atoi` (64-bit platform): an optional leading sign followed by
one or more decimal digits; anything else is a syntax error (value 0); a
value outside the `int64` range is a range error with the clamped value.
The second component is the error message of the returned `error`, `none`
for success. -/
def atoi (s : String) : Int × Option String :=
  let signSplit : Bool × List Char :=
    match s.data with
    | '-' :: rest => (true, rest)
    | '+' :: rest => (false, rest)
    | l => (false, l)
  let neg := signSplit.1
  let ds := signSplit.2
  if ds.isEmpty || !(ds.all Char.isDigit) then
    (0, some ("strconv.Atoi: parsing " ++ goQuote s ++ ": invalid syntax"))
  else
    let v : Int := if neg then -(digitsVal ds : Int) else (digitsVal ds : Int)
    if v < intMin64 then
      (intMin64, some ("strconv.Atoi: parsing " ++ goQuote s ++ ": value out of range"))
    else if intMax64 < v then
      (intMax64, some ("strconv.Atoi: parsing " ++ goQuote s ++ ": value out of range"))
    else
      (v, none)

/-- The mux route pattern `[0-9]+` for the `id` variable (lines 172 and 174):
one or more decimal digits. -/
def matchesIdPattern (s : String) : Bool :=
  !s.isEmpty && s.data.all Char.isDigit

/-- Lower-case hexadecimal digit character. -/
def hexDigit (n : Nat) : Char :=
  if n < 10 then Char.ofNat (48 + n) else Char.ofNat (87 + n)

/-- `encoding/json` escaping of one character inside a string literal, with
the encoder's default HTML escaping (`<`, `>`, `&` become unicode escapes). -/
def jsonEscapeChar (c : Char) : String :=
  let n := c.toNat
  if n = 34 then "\\\""
  else if n = 92 then "\\\\"
  else if n = 10 then "\\n"
  else if n = 13 then "\\r"
  else if n = 9 then "\\t"
  else if n = 60 then "\\u003c"
  else if n = 62 then "\\u003e"
  else if n = 38 then "\\u0026"
  else if n < 32 then "\\u00" ++ String.mk [hexDigit (n / 16), hexDigit (n % 16)]
  else String.mk [c]

/-- `encoding/json` string literal. -/
def jsonString (s : String) : String :=
  "\"" ++ String.join (s.data.map jsonEscapeChar) ++ "\""

/-- The JSON object `encoding/json` produces for a `User`, following the
struct tags and field order of lines 24-27. -/
def encodeUserObj (u : User) : String :=
  "\x7b\"id\":" ++ toString u.id ++ ",\"name\":" ++ jsonString u.name ++ "\x7d"

/-- `json.NewEncoder(w).Encode(u)`: the object followed by a newline. -/
def encodeUser (u : User) : String :=
  encodeUserObj u ++ "\n"

/-- Insertion into a list of already-rendered entries, keyed by the rendered
map key, keeping keys in the string order `encoding/json` sorts them in. -/
def insertEntry (p : String × String) : List (String × String) → List (String × String)
  | [] => [p]
  | q :: rest => if p.1 ≤ q.1 then p :: q :: rest else q :: insertEntry p rest

/-- Sort rendered entries by key string. -/
def sortEntries (l : List (String × String)) : List (String × String) :=
  l.foldr insertEntry []

/-- `json.NewEncoder(w).Encode(m)` for `m : map[int]User`: a JSON object
whose keys are the decimal ids, sorted as strings, followed by a newline. -/
def encodeUsersMap (m : UsersMap) : String :=
  let entries := sortEntries (m.map (fun p => (toString p.1, encodeUserObj p.2)))
  "\x7b" ++ String.intercalate "," (entries.map (fun p => jsonString p.1 ++ ":" ++ p.2)) ++ "\x7d\n"

/-- The observable state of an `http.ResponseWriter`: the Content-Type
header, the status code once written, and the accumulated body. -/
structure RespW where
  contentType : Option String
  status : Option Nat
  body : String
deriving DecidableEq, Repr

/-- A fresh response writer: no header set, no status written, empty body. -/
def emptyRespW : RespW :=
  { contentType := none, status := none, body := "" }

/-- `http.Error(w, msg, code)`: sets Content-Type to text/plain, writes the
status code, and writes the message followed by a newline. -/
def httpError (w : RespW) (msg : String) (code : Nat) : RespW :=
  { contentType := some "text/plain; charset=utf-8"
  , status := some code
  , body := w.body ++ msg ++ "\n" }

/-- `w.Write` via the json encoder: an implicit `WriteHeader(200)` happens on
the first write if no status was written yet. -/
def writeBody (w : RespW) (s : String) : RespW :=
  { w with status := some (w.status.getD 200), body := w.body ++ s }

/-- `ListUserHandler` (lines 73-80): on a `Get` error respond 500, otherwise
encode the map obtained through the returned reference, read while the
repository is still in state `r`. -/
def ListUserHandler (r : Repo) (w : RespW) : RespW :=
  match r.Get with
  | (_, some _) => httpError w "failed to get users" 500
  | (ref, none) => writeBody w (encodeUsersMap (ref.read r))

/-- `GetUserHandler` (lines 82-96), as a function of the repository state and
the mux `id` variable: Atoi failure responds 400 with the error message,
a missing user responds 404, a present user is encoded with implicit 200. -/
def GetUserHandler (r : Repo) (idVar : String) (w : RespW) : RespW :=
  match atoi idVar with
  | (_, some e) => httpError w e 400
  | (id, none) =>
    match r.Find id with
    | (_, false) => httpError w "User not found" 404
    | (user, true) => writeBody w (encodeUser user)

/-- mux dispatch of `GET /users/<seg>` (line 172): the route matches only
when the segment matches `[0-9]+`; a miss falls through to the router's
default NotFoundHandler, `http.NotFound`, which mux does not wrap in the
registered middleware. -/
def routeGetUser (r : Repo) (seg : String) (w : RespW) : RespW :=
  if matchesIdPattern seg then GetUserHandler r seg w
  else httpError w "404 page not found" 404

/-- `CreateUserHandler` (lines 98-122).  The json decode of the request body
and the otel counter construction are collaborator calls; the handler
observes only their outcomes, so it is a function of the decode result
(`Except` of the decode error message or the decoded `User`) and of the
counter-construction error (`none` when the metrics sink is healthy).  On
decode failure: 400 with the error message, repository untouched, nothing
logged.  On success: `Save`, set Content-Type, write 201, log the otel
error if any (`fmt.Printf("error otel: %s", ...)`; `Int64Counter` returns a
usable no-op instrument alongside its error, and `Add` returns nothing, so
the request is never aborted), then encode the stored user.  Results:
response writer, new repository state, log lines. -/
def CreateUserHandler (r : Repo) (decoded : Except String User)
    (counterErr : Option String) (w : RespW) : RespW × Repo × List String :=
  match decoded with
  | Except.error e => (httpError w e 400, r, [])
  | Except.ok user =>
    let saved := r.Save user
    let w1 := { w with contentType := some "application/json", status := some 201 }
    let logs : List String :=
      match counterErr with
      | some e => ["error otel: " ++ e]
      | none => []
    (writeBody w1 (encodeUser saved.1), saved.2, logs)

/-- `DeleteUserHandler` (lines 124-133): Atoi failure responds 400 with the
error message; otherwise delete unconditionally and write 204 (no body). -/
def DeleteUserHandler (r : Repo) (idVar : String) (w : RespW) : RespW × Repo :=
  match atoi idVar with
  | (_, some e) => (httpError w e 400, r)
  | (id, none) => ({ w with status := some 204 }, r.Delete id)

/-- `ContentTypeMiddleware` (lines 135-146): warn (a log line, nothing else)
when the Accept request header is not exactly `application/json`, set the
response Content-Type to `application/json`, then delegate to the wrapped
handler.  Results: the response after the wrapped handler ran, and the log
lines emitted. -/
def ContentTypeMiddleware (next : RespW → RespW) (accept : String) (w : RespW) :
    RespW × List String :=
  let logs : List String :=
    if accept ≠ "application/json" then ["accept header is not application/json"] else []
  (next { w with contentType := some "application/json" }, logs)

/-- The configuration of an `http.Server` and its observable serving state:
address, timeouts (seconds; 0 is Go's zero value, meaning no timeout),
whether it is accepting connections, and its number of in-flight requests. -/
structure Server where
  addr : String
  readTimeoutSec : Nat
  writeTimeoutSec : Nat
  accepting : Bool
  inflight : Nat
deriving DecidableEq, Repr

/-- The `http.Server` composite literal of main.go lines 176-182: hard-coded
address, ReadTimeout 1s, WriteTimeout 10s.  `main` never starts this server:
no `srv.ListenAndServe` call exists, so it accepts nothing. -/
def configuredSrv : Server :=
  { addr := ":8080", readTimeoutSec := 1, writeTimeoutSec := 10
  , accepting := false, inflight := 0 }

/-- `http.ListenAndServe(addr, handler)` (called at line 186): net/http
constructs its own fresh `&Server\x7bAddr: addr, Handler: handler\x7d` — every
other field, the timeouts included, is the zero value — and that server is
the one that binds the port and accepts connections. -/
def listenAndServeSrv (port : String) : Server :=
  { addr := ":" ++ port, readTimeoutSec := 0, writeTimeoutSec := 0
  , accepting := true, inflight := 0 }

/-- The state of `main` after line 187: the configured-but-idle `srv`, the
listening server started by `http.ListenAndServe`, whether the process has
exited, and how many in-flight requests were killed without their responses
being delivered. -/
structure MainState where
  srv : Server
  listener : Server
  processExited : Bool
  abandonedInflight : Nat
deriving DecidableEq, Repr

/-- `main` running (the goroutine of lines 184-187 has bound `:port` and is
serving) with `k` requests currently in flight on the listening server, at
the moment the interrupt signal arrives. -/
def runningMain (port : String) (k : Nat) : MainState :=
  { srv := configuredSrv
  , listener := { listenAndServeSrv port with inflight := k }
  , processExited := false
  , abandonedInflight := 0 }

/-- `http.Server.Shutdown`: stops its receiver accepting and waits for the
receiver's own in-flight requests to drain.  It knows nothing of any other
server value, so it leaves every other server untouched. -/
def Server.Shutdown (s : Server) : Server :=
  { s with accepting := false, inflight := 0 }

/-- What `main` does on SIGINT (lines 190-202): `ctx.Done()` is selected,
`stop()` is called, then `srv.Shutdown(context.Background())` — on the
never-started `srv`, which has no listeners and no connections, so it
returns immediately — and `main` returns.  A returning `main` exits the
process, killing all goroutines: the listening server (never told to shut
down) is accepting until the process dies, and its in-flight requests are
abandoned with their responses undelivered. -/
def mainOnInterrupt (st : MainState) : MainState :=
  { srv := st.srv.Shutdown
  , listener := st.listener
  , processExited := true
  , abandonedInflight := st.listener.inflight }

/-- The arithmetic progression `start, start+1, ..., start+n-1`, used to
state which ids a sequence of saves returns. -/
def idList (start : Int) : Nat → List Int
  | 0 => []
  | n + 1 => start :: idList (start + 1) n

/-- Runs a sequence of `Save` calls in order, collecting the returned users
and the final repository state. -/
def saveAll (r : Repo) : List User → List User × Repo
  | [] => ([], r)
  | u :: rest =>
    let first := r.Save u
    let tail := saveAll first.2 rest
    (first.1 :: tail.1, tail.2)

/-- The repository after `POST /users` with body decoding to name "Ada" on a
fresh repository (a caller-supplied id 999 included, to be ignored). -/
def adaRepo : Repo :=
  (NewRepo.Save { id := 999, name := "Ada" }).2

/-- Lookup after delete of the same key always misses. -/
theorem mapFind_mapDel (m : UsersMap) (k : Int) : mapFind (mapDel m k) k = none := by
  unfold mapFind mapDel
  rw [Option.map_eq_none']
  rw [List.find?_eq_none]
  intro x hx
  have hkeep := (List.mem_filter.mp hx).2
  simp only [bne_iff_ne, ne_eq] at hkeep
  simp [hkeep]

/-- Deleting an absent key leaves a Go map unchanged. -/
theorem mapDel_absent (m : UsersMap) (k : Int) (h : mapFind m k = none) :
    mapDel m k = m := by
  have h2 : ∀ q ∈ m, ¬ ((fun p : Int × User => p.1 == k) q = true) :=
    List.find?_eq_none.mp (by simpa [mapFind] using h)
  unfold mapDel
  rw [List.filter_eq_self]
  intro q hq
  have h3 := h2 q hq
  simp only [beq_iff_eq] at h3
  simp [h3]

/-- C7: find after delete of the same id misses, and deleting an absent id
is a no-op: the state, hence the mapping list() yields, is unchanged. -/
theorem c7_delete_find (r : Repo) (id : Int) :
    ((r.Delete id).Find id).2 = false ∧
    ((r.Find id).2 = false →
      r.Delete id = r ∧
      MapRef.read ((r.Delete id).Get).1 (r.Delete id) = MapRef.read (r.Get).1 r) := by
  constructor
  · simp [Repo.Delete, Repo.Find, mapFind_mapDel]
  · intro h
    have hn : mapFind r.users id = none := by
      cases hm : mapFind r.users id with
      | none => rfl
      | some u => simp [Repo.Find, hm] at h
    have heq : r.Delete id = r := by
      unfold Repo.Delete
      rw [mapDel_absent r.users id hn]
    exact ⟨heq, by rw [heq]⟩

/-- Witness for c7_delete_find at the fresh repository and id 7. -/
theorem c7_delete_find_witness :
    ((NewRepo.Delete 7).Find 7).2 = false ∧ NewRepo.Delete 7 = NewRepo :=
  ⟨(c7_delete_find NewRepo 7).1, ((c7_delete_find NewRepo 7).2 (by decide)).1⟩

/-- C10: what Save returns is immediately retrievable via Find, exactly, and
Save changes only the id field (the name is the caller's). -/
theorem c10_save_find (r : Repo) (u : User) :
    (r.Save u).2.Find ((r.Save u).1).id = ((r.Save u).1, true) ∧
    ((r.Save u).1).name = u.name := by
  constructor
  · simp [Repo.Save, Repo.Find, mapFind, mapPut, List.find?_cons_of_pos]
  · rfl

/-- Every element of `idList s n` is at least `s`. -/
theorem idList_le (s : Int) (n : Nat) : ∀ x ∈ idList s n, s ≤ x := by
  induction n generalizing s with
  | zero => intro x hx; simp [idList] at hx
  | succ n ih =>
    intro x hx
    simp only [idList, List.mem_cons] at hx
    rcases hx with h | h
    · omega
    · have := ih (s + 1) x h
      omega

/-- `idList` is pairwise strictly increasing. -/
theorem idList_pairwise (s : Int) (n : Nat) :
    List.Pairwise (fun a b : Int => a < b) (idList s n) := by
  induction n generalizing s with
  | zero => simp [idList]
  | succ n ih =>
    simp only [idList, List.pairwise_cons]
    refine ⟨?_, ih (s + 1)⟩
    intro x hx
    have := idList_le (s + 1) n x hx
    omega

/-- The ids returned by a sequence of saves from any state form the
arithmetic progression starting at the current counter value. -/
theorem saveAll_ids (us : List User) :
    ∀ r : Repo, ((saveAll r us).1).map User.id = idList r.nextID us.length := by
  induction us with
  | nil => intro r; rfl
  | cons u rest ih =>
    intro r
    simp only [saveAll, List.map_cons, List.length_cons, idList]
    rw [ih (r.Save u).2]
    rfl

/-- C1: from a fresh repository, the ids of the users returned by any
sequence of save calls are exactly 1, 2, 3, ... in call order — an
arithmetic progression independent of the input users, hence strictly
increasing, all distinct, starting at 1, and never taken from a
caller-supplied id. -/
theorem c1_save_ids_sequential (us : List User) :
    ((saveAll NewRepo us).1).map User.id = idList 1 us.length ∧
    List.Pairwise (fun a b : Int => a < b) (((saveAll NewRepo us).1).map User.id) ∧
    (((saveAll NewRepo us).1).map User.id).Nodup := by
  have h := saveAll_ids us NewRepo
  refine ⟨h, ?_, ?_⟩
  · rw [h]
    exact idList_pairwise 1 us.length
  · rw [h]
    exact (idList_pairwise 1 us.length).imp (fun hlt => ne_of_lt hlt)

/-- C3 (amended): Get never fails — its error result is always nil, so the
List handler's 500 branch is unreachable and the handler always takes the
success branch — and the view read through the returned reference at call
time is exactly the current users mapping.  The reference, however, aliases
the live map (see the counterexample), so what it shows tracks later
mutations. -/
theorem c3_list_amended (r : Repo) (w : RespW) :
    (r.Get).2 = none ∧
    MapRef.read (r.Get).1 r = r.users ∧
    ListUserHandler r w = writeBody w (encodeUsersMap r.users) :=
  ⟨rfl, rfl, rfl⟩

/-- C3 counterexample: the map value Get returns on the fresh repository
aliases the live table, so a later Save changes the view observed through
it — from the empty mapping to one holding the new user — refuting the
claim that later mutations do not retroactively change the returned view. -/
theorem c3_snapshot_counterexample :
    MapRef.read (NewRepo.Get).1 NewRepo = [] ∧
    MapRef.read (NewRepo.Get).1 ((NewRepo.Save { id := 0, name := "Ada" }).2) =
      [(1, { id := 1, name := "Ada" })] ∧
    decide (MapRef.read (NewRepo.Get).1 ((NewRepo.Save { id := 0, name := "Ada" }).2) =
      MapRef.read (NewRepo.Get).1 NewRepo) = false := by
  decide

/-- C4 counterexample: GET /users/abc does not reach the handler at all —
the `[0-9]+` route pattern rejects it and the router answers 404 page not
found — so its status is 404, not the 400 the claim requires. -/
theorem c4_malformed_id_counterexample :
    routeGetUser NewRepo "abc" emptyRespW =
      httpError emptyRespW "404 page not found" 404 ∧
    (routeGetUser NewRepo "abc" emptyRespW).status = some 404 ∧
    decide ((routeGetUser NewRepo "abc" emptyRespW).status = some 400) = false := by
  decide

/-- C4 (amended): an id segment that does not match the route pattern
`[0-9]+` (e.g. /users/abc) never reaches GetUserHandler — the router
answers 404 page not found; a digit-only id whose parse fails (int64
overflow) yields 400 echoing the parse error; a parsed id with no stored
user yields 404 with the fixed message; a stored user yields 200 with that
user as JSON. -/
theorem c4_get_amended (r : Repo) (seg : String) (w : RespW) :
    (matchesIdPattern seg = false →
      routeGetUser r seg w = httpError w "404 page not found" 404) ∧
    (matchesIdPattern seg = true → ∀ e, (atoi seg).2 = some e →
      routeGetUser r seg w = httpError w e 400) ∧
    (matchesIdPattern seg = true → (atoi seg).2 = none →
      (r.Find (atoi seg).1).2 = false →
      routeGetUser r seg w = httpError w "User not found" 404) ∧
    (matchesIdPattern seg = true → (atoi seg).2 = none →
      (r.Find (atoi seg).1).2 = true →
      routeGetUser r seg w = writeBody w (encodeUser (r.Find (atoi seg).1).1)) := by
  refine ⟨?_, ?_, ?_, ?_⟩
  · intro h
    simp [routeGetUser, h]
  · intro h e he
    rcases hA : atoi seg with ⟨v, eo⟩
    rw [hA] at he
    have h2 : eo = some e := he
    subst h2
    simp only [routeGetUser, h, if_true]
    unfold GetUserHandler
    rw [hA]
  · intro h hn hf
    rcases hA : atoi seg with ⟨v, eo⟩
    rw [hA] at hn hf
    have h2 : eo = none := hn
    subst h2
    dsimp only at hf
    rcases hF : r.Find v with ⟨u, ok⟩
    rw [hF] at hf
    have h3 : ok = false := hf
    subst h3
    simp [routeGetUser, h, GetUserHandler, hA, hF]
  · intro h hn hf
    rcases hA : atoi seg with ⟨v, eo⟩
    rw [hA] at hn hf
    have h2 : eo = none := hn
    subst h2
    dsimp only at hf ⊢
    rcases hF : r.Find v with ⟨u, ok⟩
    rw [hF] at hf
    have h3 : ok = true := hf
    subst h3
    simp [routeGetUser, h, GetUserHandler, hA, hF]

/-- Witness for c4_get_amended: a stored digit id answers 200 with the user
as JSON; an unknown digit id answers the fixed 404; a 20-digit id overflows
Atoi into the 400 branch with the range error echoed. -/
theorem c4_get_amended_witness :
    routeGetUser adaRepo "1" emptyRespW =
      writeBody emptyRespW (encodeUser (adaRepo.Find (atoi "1").1).1) ∧
    routeGetUser NewRepo "2" emptyRespW =
      httpError emptyRespW "User not found" 404 ∧
    routeGetUser NewRepo "99999999999999999999" emptyRespW =
      httpError emptyRespW
        "strconv.Atoi: parsing \"99999999999999999999\": value out of range" 400 :=
  ⟨(c4_get_amended adaRepo "1" emptyRespW).2.2.2 (by decide) (by decide) (by decide),
   (c4_get_amended NewRepo "2" emptyRespW).2.2.1 (by decide) (by decide) (by decide),
   (c4_get_amended NewRepo "99999999999999999999" emptyRespW).2.1 (by decide)
     "strconv.Atoi: parsing \"99999999999999999999\": value out of range" (by decide)⟩

/-- C5: a failed body decode yields 400 echoing the parse error with the
repository untouched and nothing logged; a successful decode yields 201,
Content-Type application/json, and the stored user as the JSON body, with
the response and the new repository state identical whatever the state of
the metrics counter sink, whose failure is only logged. -/
theorem c5_create_response (r : Repo) (w : RespW) (e : String) (u : User)
    (cErr : Option String) (m : String) :
    CreateUserHandler r (Except.error e) cErr w = (httpError w e 400, r, []) ∧
    (CreateUserHandler r (Except.ok u) cErr w).1 =
      (CreateUserHandler r (Except.ok u) none w).1 ∧
    (CreateUserHandler r (Except.ok u) cErr w).2.1 =
      (CreateUserHandler r (Except.ok u) none w).2.1 ∧
    ((CreateUserHandler r (Except.ok u) cErr w).1).status = some 201 ∧
    ((CreateUserHandler r (Except.ok u) cErr w).1).contentType = some "application/json" ∧
    ((CreateUserHandler r (Except.ok u) cErr w).1).body = w.body ++ encodeUser (r.Save u).1 ∧
    (CreateUserHandler r (Except.ok u) cErr w).2.1 = (r.Save u).2 ∧
    (CreateUserHandler r (Except.ok u) (some m) w).2.2 = ["error otel: " ++ m] :=
  ⟨rfl, rfl, rfl, rfl, rfl, rfl, rfl, rfl⟩

/-- C8: when the id segment parses, DeleteUserHandler deletes
unconditionally and answers 204 having written nothing to the body, whether
or not the id was stored, and a second identical DELETE answers 204 too. -/
theorem c8_delete_handler (r : Repo) (seg : String) (w : RespW)
    (h : (atoi seg).2 = none) :
    DeleteUserHandler r seg w =
      ({ w with status := some 204 }, r.Delete (atoi seg).1) ∧
    DeleteUserHandler (r.Delete (atoi seg).1) seg w =
      ({ w with status := some 204 }, (r.Delete (atoi seg).1).Delete (atoi seg).1) := by
  rcases hA : atoi seg with ⟨v, eo⟩
  rw [hA] at h
  have h2 : eo = none := h
  subst h2
  constructor
  · unfold DeleteUserHandler
    rw [hA]
  · unfold DeleteUserHandler
    rw [hA]

/-- Witness for c8_delete_handler: two consecutive DELETEs of id 1 on the
fresh repository. -/
theorem c8_delete_handler_witness :
    DeleteUserHandler NewRepo "1" emptyRespW =
      ({ emptyRespW with status := some 204 }, NewRepo.Delete (atoi "1").1) ∧
    DeleteUserHandler (NewRepo.Delete (atoi "1").1) "1" emptyRespW =
      ({ emptyRespW with status := some 204 },
        (NewRepo.Delete (atoi "1").1).Delete (atoi "1").1) :=
  c8_delete_handler NewRepo "1" emptyRespW (by decide)

/-- C9: the middleware hands the wrapped handler a writer whose Content-Type
is already set to application/json; the response is the same whatever the
Accept header; and an Accept other than application/json only adds the
warning log line. -/
theorem c9_middleware_spec (next : RespW → RespW) (accept : String) (w : RespW) :
    (ContentTypeMiddleware next accept w).1 =
      next { w with contentType := some "application/json" } ∧
    (ContentTypeMiddleware next accept w).1 =
      (ContentTypeMiddleware next "application/json" w).1 ∧
    (accept = "application/json" → (ContentTypeMiddleware next accept w).2 = []) ∧
    (accept ≠ "application/json" →
      (ContentTypeMiddleware next accept w).2 =
        ["accept header is not application/json"]) := by
  refine ⟨rfl, rfl, ?_, ?_⟩
  · intro h
    simp [ContentTypeMiddleware, h]
  · intro h
    simp [ContentTypeMiddleware, h]

/-- Witness for c9_middleware_spec, with Accept text/html and the identity
function as the wrapped handler. -/
theorem c9_middleware_spec_witness :
    (ContentTypeMiddleware (fun x => x) "text/html" emptyRespW).2 =
      ["accept header is not application/json"] ∧
    (ContentTypeMiddleware (fun x => x) "application/json" emptyRespW).2 = [] :=
  ⟨(c9_middleware_spec (fun x => x) "text/html" emptyRespW).2.2.2 (by decide),
   (c9_middleware_spec (fun x => x) "application/json" emptyRespW).2.2.1 rfl⟩

/-- C2: what the code does on SIGINT while running.  Shutdown is invoked on
the configured-but-never-started srv, which touches no other server: the
listening server is still accepting when the process exits, and with one
slow request in flight the exit abandons exactly that request, its response
undelivered, instead of letting it complete first. -/
theorem c2_interrupt_behavior :
    (∀ st : MainState, (mainOnInterrupt st).listener = st.listener) ∧
    (mainOnInterrupt (runningMain "8080" 1)).processExited = true ∧
    (mainOnInterrupt (runningMain "8080" 1)).listener.accepting = true ∧
    (mainOnInterrupt (runningMain "8080" 1)).abandonedInflight = 1 :=
  ⟨fun _ => rfl, rfl, rfl, rfl⟩

/-- C6: what the code configures.  The fixed 1s read / strictly longer 10s
write timeout pair lives on the srv value that never accepts a connection;
the server actually accepting connections is the one http.ListenAndServe
creates, with both timeouts at Go's zero value, i.e. no timeout at all. -/
theorem c6_timeouts_behavior :
    configuredSrv.readTimeoutSec = 1 ∧
    configuredSrv.writeTimeoutSec = 10 ∧
    (runningMain "8080" 0).srv = configuredSrv ∧
    (runningMain "8080" 0).srv.accepting = false ∧
    (runningMain "8080" 0).listener.accepting = true ∧
    (runningMain "8080" 0).listener.readTimeoutSec = 0 ∧
    (runningMain "8080" 0).listener.writeTimeoutSec = 0 :=
  ⟨rfl, rfl, rfl, rfl, rfl, rfl, rfl⟩

end GoHttpServer
